import Mathlib

/-!
# Verification of the flip-clock tick pipeline

Shallow embedding of the core of `bluenoe/flip-clock`:

* `src/js/clock.js` — `getTimeParts` (time formatting, 12h/24h mapping,
  fallback on timezone failure);
* `src/js/renderer.js` — `render` / `resetState` (per-digit change
  detection, flip-animation class lifecycle with its 600 ms removal
  timeout);
* `src/js/main.js` — `updateClock` / `startClock` (the 1-second tick loop);
* `src/js/settings.js` — `loadSettings` (defaults merge);
* `src/js/timezone.js` — `setTimezone` / `getCurrentTimezone`.

The browser platform APIs the code calls are modelled by their documented
behaviour: `Intl.DateTimeFormat('en-US', {hour:'2-digit', minute:'2-digit',
second:'2-digit', hour12})` is abstracted as the wall-clock fields it
resolves for the timestamp in the requested timezone (an `Option WallClock`:
`none` is the throwing case caught by `clock.js`), `localStorage` /
`JSON.parse` as an `Except`-valued input, and `setInterval` as a list of
tick outcomes folded over the render state (an uncaught exception in one
callback does not cancel the interval; it is reported to the `error` event
listener that `main.js` installs).
-/

namespace FlipClock

/-- Wall-clock fields (hour-of-day, minute, second) as resolved for a
timestamp in some timezone. -/
structure WallClock where
  hour : Nat
  minute : Nat
  second : Nat
deriving DecidableEq, Repr

/-- A resolvable wall clock: hour in 0..23, minute and second in 0..59. -/
def WallClock.valid (w : WallClock) : Prop :=
  w.hour < 24 ∧ w.minute < 60 ∧ w.second < 60

instance (w : WallClock) : Decidable w.valid := by
  unfold WallClock.valid; infer_instance

/-- The object returned by `getTimeParts` (clock.js lines 40-48 / 66-74):
six single-character digits plus the period label (`''` in 24h mode). -/
structure TimeParts where
  h1 : Char
  h2 : Char
  m1 : Char
  m2 : Char
  s1 : Char
  s2 : Char
  ampm : String
deriving DecidableEq, Repr

/-- `String(n).padStart(2, '0')` followed by taking characters `[0]` and
`[1]`, for the two-digit numeric fields (all are < 100). -/
def pad2 (n : Nat) : Char × Char :=
  (Nat.digitChar (n / 10), Nat.digitChar (n % 10))

/-- The 12-hour hour value: `hours % 12`, then 0 displays as 12
(clock.js lines 58-59; the same mapping is what
`Intl.DateTimeFormat(..., hour12: true)` yields for en-US, hourCycle h12). -/
def hour12Value (h : Nat) : Nat :=
  if h % 12 = 0 then 12 else h % 12

/-- The numeric hour field the en-US formatter emits: 1..12 when
`hour12: true`, 0..23 otherwise. -/
def intlHourField (h : Nat) (is12h : Bool) : Nat :=
  if is12h then hour12Value h else h

/-- The `dayPeriod` part: present only when `hour12: true`; `'AM'` for
hour-of-day 0..11, `'PM'` for 12..23.  `getTimeParts` stores `''` when the
part is absent (`timeParts.ampm || ''`, clock.js line 47). -/
def intlDayPeriod (h : Nat) (is12h : Bool) : String :=
  if is12h then (if h < 12 then "AM" else "PM") else ""

/-- Success path of `getTimeParts` (clock.js lines 14-48): format the
resolved wall clock with `Intl.DateTimeFormat('en-US', {hour:'2-digit',
minute:'2-digit', second:'2-digit', hour12})`, then split each two-digit
field into its two characters.  The `|| '00'` / `|| '0'` defaults on lines
36-46 never fire because every field is two characters here. -/
def getTimePartsOk (w : WallClock) (is12h : Bool) : TimeParts :=
  { h1 := (pad2 (intlHourField w.hour is12h)).1
    h2 := (pad2 (intlHourField w.hour is12h)).2
    m1 := (pad2 w.minute).1
    m2 := (pad2 w.minute).2
    s1 := (pad2 w.second).1
    s2 := (pad2 w.second).2
    ampm := intlDayPeriod w.hour is12h }

/-- Catch path of `getTimeParts` (clock.js lines 49-74): recompute from the
local system clock — `ampm` from the raw hour, then the hour mapped through
`% 12` with 0 displaying as 12, each field `padStart(2, '0')`. -/
def getTimePartsFallback (localNow : WallClock) (is12h : Bool) : TimeParts :=
  let hours0 := localNow.hour
  let ampm := if is12h then (if 12 ≤ hours0 then "PM" else "AM") else ""
  let hours := if is12h then hour12Value hours0 else hours0
  { h1 := (pad2 hours).1
    h2 := (pad2 hours).2
    m1 := (pad2 localNow.minute).1
    m2 := (pad2 localNow.minute).2
    s1 := (pad2 localNow.second).1
    s2 := (pad2 localNow.second).2
    ampm := ampm }

/-- `getTimeParts(date, {timezone, is12h})` (clock.js lines 13-76).
`tzResolved` is the wall clock the `Intl` formatter resolves for the date in
the requested timezone, or `none` when the timezone identifier is invalid /
the locale engine throws; in that case the `catch` block recomputes from
`localNow`, the local system clock.  The function is total: no path
raises to the caller. -/
def getTimeParts (tzResolved : Option WallClock) (localNow : WallClock)
    (is12h : Bool) : TimeParts :=
  match tzResolved with
  | some w => getTimePartsOk w is12h
  | none => getTimePartsFallback localNow is12h

/-! ## Renderer (src/js/renderer.js) -/

/-- The six digits of a `TimeParts` in render order — renderer.js line 35-36:
`keys = ['h1','h2','m1','m2','s1','s2']`, `currentTime = keys.map(...).join('')`. -/
def keysDigits (p : TimeParts) : List Char :=
  [p.h1, p.h2, p.m1, p.m2, p.s1, p.s2]

/-- The positions renderer.js lines 39-61 treats as changed: index `i` with
`timeParts[key] !== previousTime[i]`.  When `previousTime` is shorter than
`i` the JS index read yields `undefined`, which never equals a digit
character, so the position counts as changed. -/
def changedPositions (previousTime : List Char) (p : TimeParts) : List Nat :=
  (List.range 6).filter fun i =>
    match previousTime.get? i with
    | some old => (keysDigits p).getD i '0' != old
    | none => true

/-- The sentinel `previousTime` value `'000000'` (renderer.js lines 6 and 81). -/
def sentinel : List Char := ['0', '0', '0', '0', '0', '0']

/-- Renderer state: `previousTime` (module-level string, renderer.js line 6)
and the digits currently shown in the DOM (`element.textContent` of the six
digit elements; all six elements are assumed found by `initClock`). -/
structure RenderState where
  prev : List Char
  screen : List Char
deriving DecidableEq, Repr

/-- One call of `render(timeParts)` (renderer.js lines 34-75): positions
whose digit differs from `previousTime` get their `textContent` rewritten
(and their flip animation re-triggered); unchanged positions keep whatever
the DOM already shows.  `previousTime` becomes the new six-digit string. -/
def renderStep (s : RenderState) (p : TimeParts) : RenderState :=
  let cur := keysDigits p
  { prev := cur
    screen := (List.range 6).map fun i =>
      if i ∈ changedPositions s.prev p then cur.getD i '0' else s.screen.getD i '0' }

/-- `resetState()` (renderer.js lines 80-82): `previousTime = '000000'`.
The DOM contents are untouched. -/
def resetState (s : RenderState) : RenderState :=
  { s with prev := sentinel }

/-! ## Flip animation timing (renderer.js lines 50-59)

On a change the element's `flip-animation` class is removed, re-added, and a
`setTimeout` is scheduled to remove it 600 ms later.  Pending removal
timeouts are never cancelled, so every past trigger contributes an
unconditional class removal at `t + 600`.  The class is present at query
time `now` iff some trigger happened at or before `now` and no scheduled
removal fires strictly after the latest such trigger and at or before `now`
(a removal coinciding with a trigger is overridden by the synchronous
re-add). -/

/-- The CSS-matching animation duration (renderer.js line 59). -/
def ANIMATION_MS : Nat := 600

/-- Whether a digit position carries the `flip-animation` class at `now`,
given the list of times at which `render` triggered its flip. -/
def isFlipping (triggers : List Nat) (now : Nat) : Bool :=
  triggers.any fun t =>
    t ≤ now && triggers.all fun r =>
      !(r + ANIMATION_MS ≤ now) || r + ANIMATION_MS ≤ t

/-! ## Scheduler (src/js/main.js) -/

/-- One tick of `updateClock` (main.js lines 127-140), given the outcome of
the formatting step: `some p` renders `p`; `none` models formatting throwing
unexpectedly — `render` is never reached so the render state is untouched,
and the exception propagates out of the interval callback. -/
def updateClock (fmt : Option TimeParts) (s : RenderState) : RenderState :=
  match fmt with
  | some p => renderStep s p
  | none => s

/-- The periodic drive set up by `startClock` (main.js line 120,
`setInterval(updateClock, 1000)`): each elapsed interval invokes
`updateClock` once.  An uncaught exception in one callback is reported to
the window `error` listener and does not cancel the interval, so later
ticks still run. -/
def runTicks (ticks : List (Option TimeParts)) (s : RenderState) : RenderState :=
  ticks.foldl (fun st t => updateClock t st) s

/-! ## Settings (src/js/settings.js) -/

/-- The settings object: the five preference keys (settings.js lines 5-11). -/
structure Settings where
  soundOn : Bool
  is12h : Bool
  theme : String
  primary : String
  timezone : String
deriving DecidableEq, Repr

/-- A parsed stored object: each preference key optionally present
(absent keys fall through to the defaults under the JS spread merge). -/
structure PartialSettings where
  soundOn : Option Bool := none
  is12h : Option Bool := none
  theme : Option String := none
  primary : Option String := none
  timezone : Option String := none
deriving DecidableEq, Repr

/-- `DEFAULTS` (settings.js lines 5-11); `localTz` is
`Intl.DateTimeFormat().resolvedOptions().timeZone`, the runtime's resolved
local timezone. -/
def DEFAULTS (localTz : String) : Settings :=
  { soundOn := false, is12h := false, theme := "dark"
    primary := "#66a3ff", timezone := localTz }

/-- The spread merge `{...DEFAULTS, ...parsed}` (settings.js line 22). -/
def mergeSettings (d : Settings) (p : PartialSettings) : Settings :=
  { soundOn := p.soundOn.getD d.soundOn
    is12h := p.is12h.getD d.is12h
    theme := p.theme.getD d.theme
    primary := p.primary.getD d.primary
    timezone := p.timezone.getD d.timezone }

/-- `loadSettings()` (settings.js lines 17-28).  `stored` is the combined
outcome of `localStorage.getItem` + `JSON.parse`: `.error` when either
throws, `.ok none` when no (truthy) stored string exists, `.ok (some p)`
for a parsed object.  Every failure path returns `{...DEFAULTS}`. -/
def loadSettings (localTz : String)
    (stored : Except Unit (Option PartialSettings)) : Settings :=
  match stored with
  | .ok (some p) => mergeSettings (DEFAULTS localTz) p
  | .ok none => DEFAULTS localTz
  | .error _ => DEFAULTS localTz

/-! ## Timezone state (src/js/timezone.js) -/

/-- The initial module-level `currentTimezone` (timezone.js line 6). -/
def initialTimezone : String := "UTC"

/-- `setTimezone(timezoneId)` (timezone.js lines 55-64): the constructor
`new Intl.DateTimeFormat('en-US', {timeZone: timezoneId})` acts as
validation (`valid` abstracts whether it throws); only on success is
`currentTimezone` assigned. -/
def setTimezone (valid : String → Bool) (cur : String) (timezoneId : String) :
    String :=
  if valid timezoneId then timezoneId else cur

/-- `getCurrentTimezone()` (timezone.js lines 70-72). -/
def getCurrentTimezone (cur : String) : String := cur

end FlipClock

namespace FlipClock

/-! ## Claims -/

/-- C1: for a timestamp whose hour-of-day in the configured timezone is 13
(e.g. 13:05:09 UTC) and 12-hour mode on, `getTimeParts` zero-pads the hour
to two characters: `h1 = '0'`, `h2 = '1'`, with period label `"PM"`. -/
theorem hour13_12h_pads_to_01_pm (m s : Nat) (localNow : WallClock)
    (hm : m < 60) (hs : s < 60) :
    (getTimeParts (some ⟨13, m, s⟩) localNow true).h1 = '0' ∧
    (getTimeParts (some ⟨13, m, s⟩) localNow true).h2 = '1' ∧
    (getTimeParts (some ⟨13, m, s⟩) localNow true).ampm = "PM" :=
  ⟨by with_unfolding_all rfl, by with_unfolding_all rfl, rfl⟩

theorem hour13_12h_pads_to_01_pm_witness :
    5 < 60 ∧ 9 < 60 ∧
    ((getTimeParts (some ⟨13, 5, 9⟩) ⟨0, 0, 0⟩ true).h1 = '0' ∧
     (getTimeParts (some ⟨13, 5, 9⟩) ⟨0, 0, 0⟩ true).h2 = '1' ∧
     (getTimeParts (some ⟨13, 5, 9⟩) ⟨0, 0, 0⟩ true).ampm = "PM") :=
  ⟨by decide, by decide,
   hour13_12h_pads_to_01_pm 5 9 ⟨0, 0, 0⟩ (by decide) (by decide)⟩

/-- C2: the claim says a render following `resetState()` marks all 6
positions as changed even when the new digits equal the sentinel's
characters.  The code does not: with `previousTime = '000000'` a 24-hour
midnight render (digits `'000000'`) matches the sentinel at every position,
so `render` marks nothing as changed and rewrites no `textContent` — the
DOM keeps whatever digits it showed before the reset (here `'134509'`).
This theorem evaluates the code at that failing input. -/
theorem reset_then_midnight_render_changes_nothing :
    changedPositions
        (resetState ⟨['1','3','4','5','0','9'], ['1','3','4','5','0','9']⟩).prev
        (getTimeParts (some ⟨0, 0, 0⟩) ⟨0, 0, 0⟩ false) = [] ∧
    (renderStep (resetState ⟨['1','3','4','5','0','9'], ['1','3','4','5','0','9']⟩)
        (getTimeParts (some ⟨0, 0, 0⟩) ⟨0, 0, 0⟩ false)).screen =
      ['1','3','4','5','0','9'] := by
  decide

/-- C3 counterexample: position triggered at T = 0, re-triggered at
T2 = 300 (before the 600 ms expiry).  The claim says the flipping state is
still active at `T2 + duration - 1 = 899`; the code's uncancelled removal
timeout from the first trigger fires at 600 and ends it, so `isFlipping`
is false at 899. -/
theorem retrigger_does_not_extend_counterexample :
    0 < 300 ∧ 300 < 0 + ANIMATION_MS ∧
    isFlipping [0, 300] (300 + ANIMATION_MS - 1) = false := by
  decide

/-- C3 amended: after a single `trigger(p)` at T the flipping state is
active at `T + duration - 1` and inactive at `T + duration + 1`; but when p
is re-triggered at T2 with `T < T2 < T + duration`, the earlier trigger's
uncancelled removal timeout still fires at `T + duration`, so the flipping
state is active exactly on `[T, T + duration)` — the re-trigger does not
extend the window. -/
theorem flip_window_and_truncated_retrigger (T T2 now : Nat)
    (h1 : T < T2) (h2 : T2 < T + ANIMATION_MS) :
    isFlipping [T] (T + ANIMATION_MS - 1) = true ∧
    isFlipping [T] (T + ANIMATION_MS + 1) = false ∧
    (isFlipping [T, T2] now = true ↔ (T ≤ now ∧ now < T + ANIMATION_MS)) := by
  simp only [ANIMATION_MS] at h2
  refine ⟨?_, ?_, ?_⟩ <;>
    simp only [isFlipping, ANIMATION_MS, List.any_cons, List.any_nil,
      List.all_cons, List.all_nil, Bool.or_false, Bool.and_true,
      Bool.or_eq_true, Bool.and_eq_true, Bool.or_eq_false_iff,
      Bool.and_eq_false_iff, Bool.not_eq_true', Bool.not_eq_false',
      decide_eq_true_eq, decide_eq_false_iff_not] <;>
    omega

theorem flip_window_and_truncated_retrigger_witness :
    0 < 300 ∧ 300 < 0 + ANIMATION_MS ∧
    (isFlipping [0] (0 + ANIMATION_MS - 1) = true ∧
     isFlipping [0] (0 + ANIMATION_MS + 1) = false ∧
     (isFlipping [0, 300] 500 = true ↔ (0 ≤ 500 ∧ 500 < 0 + ANIMATION_MS))) :=
  ⟨by decide, by decide,
   flip_window_and_truncated_retrigger 0 300 500 (by decide) (by decide)⟩

/-- C10: `setTimezone` is atomic on error — an identifier that fails
validation leaves the current-timezone state unchanged, so
`getCurrentTimezone` keeps returning the previously set identifier; the
initial value is `'UTC'`. -/
theorem setTimezone_atomic_on_error (valid : String → Bool)
    (cur timezoneId : String) (h : valid timezoneId = false) :
    getCurrentTimezone (setTimezone valid cur timezoneId) =
      getCurrentTimezone cur ∧
    getCurrentTimezone initialTimezone = "UTC" := by
  unfold getCurrentTimezone setTimezone initialTimezone
  simp [h]

theorem setTimezone_atomic_on_error_witness :
    (fun _ : String => false) "Not/A_Zone" = false ∧
    (getCurrentTimezone (setTimezone (fun _ => false) "UTC" "Not/A_Zone") =
       getCurrentTimezone "UTC" ∧
     getCurrentTimezone initialTimezone = "UTC") :=
  ⟨rfl, setTimezone_atomic_on_error (fun _ => false) "UTC" "Not/A_Zone" rfl⟩

end FlipClock

namespace FlipClock

/-! ## Helper lemmas shared by the formatting claims -/

theorem digitChar_isDigit (d : Nat) (hd : d < 10) :
    (Nat.digitChar d).isDigit = true := by
  interval_cases d <;> decide

theorem pad2_isDigit (n : Nat) (hn : n < 100) :
    (pad2 n).1.isDigit = true ∧ (pad2 n).2.isDigit = true :=
  ⟨digitChar_isDigit _ (by omega), digitChar_isDigit _ (by omega)⟩

theorem hour12Value_bounds (h : Nat) :
    1 ≤ hour12Value h ∧ hour12Value h ≤ 12 := by
  unfold hour12Value; split <;> omega

theorem intlHourField_lt (h : Nat) (b : Bool) (hh : h < 24) :
    intlHourField h b < 100 := by
  have := hour12Value_bounds h
  unfold intlHourField; split <;> omega

theorem getTimePartsOk_digits (w : WallClock) (b : Bool) (hv : w.valid) :
    (getTimePartsOk w b).h1.isDigit = true ∧
    (getTimePartsOk w b).h2.isDigit = true ∧
    (getTimePartsOk w b).m1.isDigit = true ∧
    (getTimePartsOk w b).m2.isDigit = true ∧
    (getTimePartsOk w b).s1.isDigit = true ∧
    (getTimePartsOk w b).s2.isDigit = true := by
  obtain ⟨hh, hm, hs⟩ := hv
  exact ⟨(pad2_isDigit _ (intlHourField_lt _ _ hh)).1,
         (pad2_isDigit _ (intlHourField_lt _ _ hh)).2,
         (pad2_isDigit _ (by omega)).1, (pad2_isDigit _ (by omega)).2,
         (pad2_isDigit _ (by omega)).1, (pad2_isDigit _ (by omega)).2⟩

theorem getTimePartsFallback_digits (l : WallClock) (b : Bool) (hv : l.valid) :
    (getTimePartsFallback l b).h1.isDigit = true ∧
    (getTimePartsFallback l b).h2.isDigit = true ∧
    (getTimePartsFallback l b).m1.isDigit = true ∧
    (getTimePartsFallback l b).m2.isDigit = true ∧
    (getTimePartsFallback l b).s1.isDigit = true ∧
    (getTimePartsFallback l b).s2.isDigit = true := by
  obtain ⟨hh, hm, hs⟩ := hv
  have hb : (if b then hour12Value l.hour else l.hour) < 100 := by
    have := hour12Value_bounds l.hour
    cases b <;> simp <;> omega
  exact ⟨(pad2_isDigit _ hb).1, (pad2_isDigit _ hb).2,
         (pad2_isDigit _ (by omega)).1, (pad2_isDigit _ (by omega)).2,
         (pad2_isDigit _ (by omega)).1, (pad2_isDigit _ (by omega)).2⟩

theorem intlDayPeriod_empty_iff (h : Nat) (b : Bool) :
    intlDayPeriod h b = "" ↔ b = false := by
  cases b <;> simp [intlDayPeriod] <;> split <;> decide

theorem fallback_ampm_empty_iff (l : WallClock) (b : Bool) :
    (getTimePartsFallback l b).ampm = "" ↔ b = false := by
  cases b <;> simp [getTimePartsFallback] <;> split <;> decide

theorem get?_eq_some_getD (l : List Char) (i : Nat) (h : i < l.length)
    (d : Char) : l.get? i = some (l.getD i d) := by
  rw [List.getD_eq_get?, List.get?_eq_get h]
  rfl

end FlipClock

namespace FlipClock

/-- C4: for every valid `(timestamp, timezone, hourCycle)` input,
`getTimeParts` returns six single-character digit fields each in `'0'..'9'`,
and the period label is the empty string iff 12-hour mode is off. -/
theorem time_parts_shape (tzResolved : Option WallClock) (localNow : WallClock)
    (is12h : Bool) (htz : ∀ w, tzResolved = some w → w.valid)
    (hl : localNow.valid) :
    ((getTimeParts tzResolved localNow is12h).h1.isDigit = true ∧
     (getTimeParts tzResolved localNow is12h).h2.isDigit = true ∧
     (getTimeParts tzResolved localNow is12h).m1.isDigit = true ∧
     (getTimeParts tzResolved localNow is12h).m2.isDigit = true ∧
     (getTimeParts tzResolved localNow is12h).s1.isDigit = true ∧
     (getTimeParts tzResolved localNow is12h).s2.isDigit = true) ∧
    ((getTimeParts tzResolved localNow is12h).ampm = "" ↔ is12h = false) := by
  cases tzResolved with
  | some w =>
      exact ⟨getTimePartsOk_digits w is12h (htz w rfl),
             intlDayPeriod_empty_iff w.hour is12h⟩
  | none =>
      exact ⟨getTimePartsFallback_digits localNow is12h hl,
             fallback_ampm_empty_iff localNow is12h⟩

theorem time_parts_shape_witness :
    (∀ w, (some (⟨13, 5, 9⟩ : WallClock)) = some w → w.valid) ∧
    (⟨1, 2, 3⟩ : WallClock).valid ∧
    (((getTimeParts (some ⟨13, 5, 9⟩) ⟨1, 2, 3⟩ true).h1.isDigit = true ∧
      (getTimeParts (some ⟨13, 5, 9⟩) ⟨1, 2, 3⟩ true).h2.isDigit = true ∧
      (getTimeParts (some ⟨13, 5, 9⟩) ⟨1, 2, 3⟩ true).m1.isDigit = true ∧
      (getTimeParts (some ⟨13, 5, 9⟩) ⟨1, 2, 3⟩ true).m2.isDigit = true ∧
      (getTimeParts (some ⟨13, 5, 9⟩) ⟨1, 2, 3⟩ true).s1.isDigit = true ∧
      (getTimeParts (some ⟨13, 5, 9⟩) ⟨1, 2, 3⟩ true).s2.isDigit = true) ∧
     ((getTimeParts (some ⟨13, 5, 9⟩) ⟨1, 2, 3⟩ true).ampm = "" ↔
        true = false)) :=
  ⟨fun w hw => by injection hw with h; subst h; decide,
   by decide,
   time_parts_shape (some ⟨13, 5, 9⟩) ⟨1, 2, 3⟩ true
     (fun w hw => by injection hw with h; subst h; decide) (by decide)⟩

/-- C5: in 12-hour mode, hour-of-day 0 formats with hour digits `'1'`,`'2'`
and period `"AM"`, and hour-of-day 12 formats with hour digits `'1'`,`'2'`
and period `"PM"`. -/
theorem twelve_hour_boundary (m s : Nat) (localNow : WallClock)
    (hm : m < 60) (hs : s < 60) :
    ((getTimeParts (some ⟨0, m, s⟩) localNow true).h1 = '1' ∧
     (getTimeParts (some ⟨0, m, s⟩) localNow true).h2 = '2' ∧
     (getTimeParts (some ⟨0, m, s⟩) localNow true).ampm = "AM") ∧
    ((getTimeParts (some ⟨12, m, s⟩) localNow true).h1 = '1' ∧
     (getTimeParts (some ⟨12, m, s⟩) localNow true).h2 = '2' ∧
     (getTimeParts (some ⟨12, m, s⟩) localNow true).ampm = "PM") :=
  ⟨⟨by with_unfolding_all rfl, by with_unfolding_all rfl,
     by with_unfolding_all rfl⟩,
   ⟨by with_unfolding_all rfl, by with_unfolding_all rfl,
     by with_unfolding_all rfl⟩⟩

theorem twelve_hour_boundary_witness :
    34 < 60 ∧ 56 < 60 ∧
    (((getTimeParts (some ⟨0, 34, 56⟩) ⟨0, 0, 0⟩ true).h1 = '1' ∧
      (getTimeParts (some ⟨0, 34, 56⟩) ⟨0, 0, 0⟩ true).h2 = '2' ∧
      (getTimeParts (some ⟨0, 34, 56⟩) ⟨0, 0, 0⟩ true).ampm = "AM") ∧
     ((getTimeParts (some ⟨12, 34, 56⟩) ⟨0, 0, 0⟩ true).h1 = '1' ∧
      (getTimeParts (some ⟨12, 34, 56⟩) ⟨0, 0, 0⟩ true).h2 = '2' ∧
      (getTimeParts (some ⟨12, 34, 56⟩) ⟨0, 0, 0⟩ true).ampm = "PM")) :=
  ⟨by decide, by decide,
   twelve_hour_boundary 34 56 ⟨0, 0, 0⟩ (by decide) (by decide)⟩

/-- C6: the per-position change detection is a pure fixed-width comparison:
for a 6-character previous string the changed set is empty iff the previous
string equals the concatenated current digits, and membership holds exactly
at the indices `0..5` where the characters differ. -/
theorem diff_is_fixed_width_comparison (prev : List Char) (p : TimeParts)
    (hlen : prev.length = 6) :
    (changedPositions prev p = [] ↔ prev = keysDigits p) ∧
    (∀ i : Nat, i ∈ changedPositions prev p ↔
      (i < 6 ∧ (keysDigits p).getD i '0' ≠ prev.getD i '0')) := by
  constructor
  · constructor
    · intro hnil
      unfold changedPositions at hnil
      have hall := List.filter_eq_nil_iff.mp hnil
      apply List.ext_get?
      intro n
      by_cases hn : n < 6
      · have hfn := hall n (List.mem_range.mpr hn)
        rw [get?_eq_some_getD prev n (by omega) '0'] at hfn
        simp only [bne_iff_ne, ne_eq, Decidable.not_not] at hfn
        rw [get?_eq_some_getD prev n (by omega) '0',
          get?_eq_some_getD (keysDigits p) n (by simp [keysDigits]; omega) '0',
          hfn]
      · rw [List.get?_eq_none.mpr (by omega),
          List.get?_eq_none.mpr (by simp [keysDigits]; omega)]
    · intro heq
      subst heq
      unfold changedPositions
      apply List.filter_eq_nil_iff.mpr
      intro a ha
      have ha6 : a < 6 := List.mem_range.mp ha
      rw [get?_eq_some_getD (keysDigits p) a (by simp [keysDigits]; omega) '0']
      simp
  · intro i
    unfold changedPositions
    rw [List.mem_filter, List.mem_range]
    constructor
    · rintro ⟨h6, hf⟩
      rw [get?_eq_some_getD prev i (by omega) '0'] at hf
      simp only [bne_iff_ne, ne_eq] at hf
      exact ⟨h6, hf⟩
    · rintro ⟨h6, hne⟩
      refine ⟨h6, ?_⟩
      rw [get?_eq_some_getD prev i (by omega) '0']
      simpa using hne

theorem diff_is_fixed_width_comparison_witness :
    (['1', '3', '0', '5', '0', '9'] : List Char).length = 6 ∧
    ((changedPositions ['1', '3', '0', '5', '0', '9']
        (getTimeParts (some ⟨13, 5, 9⟩) ⟨0, 0, 0⟩ false) = [] ↔
      ['1', '3', '0', '5', '0', '9'] =
        keysDigits (getTimeParts (some ⟨13, 5, 9⟩) ⟨0, 0, 0⟩ false)) ∧
     (∀ i : Nat, i ∈ changedPositions ['1', '3', '0', '5', '0', '9']
         (getTimeParts (some ⟨13, 5, 9⟩) ⟨0, 0, 0⟩ false) ↔
       (i < 6 ∧
        (keysDigits (getTimeParts (some ⟨13, 5, 9⟩) ⟨0, 0, 0⟩ false)).getD i '0' ≠
          (['1', '3', '0', '5', '0', '9'] : List Char).getD i '0'))) :=
  ⟨by decide,
   diff_is_fixed_width_comparison ['1', '3', '0', '5', '0', '9']
     (getTimeParts (some ⟨13, 5, 9⟩) ⟨0, 0, 0⟩ false) (by decide)⟩

/-- C7: `getTimeParts` never raises to its caller: it is a total function,
and on timezone-resolution / locale-engine failure (the `none` case) it
returns the fallback computed from the local system clock, with the same
structure — six digit characters and the period label per the 12-hour
mapping applied to the local hour. -/
theorem formatter_never_raises (localNow : WallClock) (is12h : Bool)
    (hl : localNow.valid) :
    getTimeParts none localNow is12h = getTimePartsFallback localNow is12h ∧
    ((getTimeParts none localNow is12h).h1.isDigit = true ∧
     (getTimeParts none localNow is12h).h2.isDigit = true ∧
     (getTimeParts none localNow is12h).m1.isDigit = true ∧
     (getTimeParts none localNow is12h).m2.isDigit = true ∧
     (getTimeParts none localNow is12h).s1.isDigit = true ∧
     (getTimeParts none localNow is12h).s2.isDigit = true) ∧
    (getTimeParts none localNow is12h).ampm =
      (if is12h then (if 12 ≤ localNow.hour then "PM" else "AM") else "") :=
  ⟨rfl, getTimePartsFallback_digits localNow is12h hl, rfl⟩

theorem formatter_never_raises_witness :
    (⟨23, 59, 58⟩ : WallClock).valid ∧
    (getTimeParts none ⟨23, 59, 58⟩ true = getTimePartsFallback ⟨23, 59, 58⟩ true ∧
     ((getTimeParts none ⟨23, 59, 58⟩ true).h1.isDigit = true ∧
      (getTimeParts none ⟨23, 59, 58⟩ true).h2.isDigit = true ∧
      (getTimeParts none ⟨23, 59, 58⟩ true).m1.isDigit = true ∧
      (getTimeParts none ⟨23, 59, 58⟩ true).m2.isDigit = true ∧
      (getTimeParts none ⟨23, 59, 58⟩ true).s1.isDigit = true ∧
      (getTimeParts none ⟨23, 59, 58⟩ true).s2.isDigit = true) ∧
     (getTimeParts none ⟨23, 59, 58⟩ true).ampm =
       (if (true : Bool) then (if 12 ≤ (⟨23, 59, 58⟩ : WallClock).hour
          then "PM" else "AM") else "")) :=
  ⟨by decide, formatter_never_raises ⟨23, 59, 58⟩ true (by decide)⟩

/-- C8: if formatting throws during a single tick (`none`), that tick
leaves the render state — `previousTime` and the rendered digits —
unchanged, and the interval keeps running: the remaining ticks are still
applied exactly as if the bad tick had not happened. -/
theorem bad_tick_skipped_timer_continues (s : RenderState)
    (rest : List (Option TimeParts)) :
    updateClock none s = s ∧ runTicks (none :: rest) s = runTicks rest s :=
  ⟨rfl, rfl⟩

/-- C9: `loadSettings` returns the stored object merged over the defaults —
each of the five preference keys takes the stored value when present and
the default otherwise, with `timezone` defaulting to the runtime's resolved
local timezone — and returns the defaults when nothing is stored or when
storage access / parsing fails. -/
theorem load_settings_merges_over_defaults (localTz : String)
    (p : PartialSettings) :
    loadSettings localTz (Except.ok (some p)) =
      { soundOn := p.soundOn.getD false
        is12h := p.is12h.getD false
        theme := p.theme.getD "dark"
        primary := p.primary.getD "#66a3ff"
        timezone := p.timezone.getD localTz } ∧
    loadSettings localTz (Except.ok none) = DEFAULTS localTz ∧
    loadSettings localTz (Except.error ()) = DEFAULTS localTz :=
  ⟨rfl, rfl, rfl⟩

end FlipClock
